import Mathlib

/-!
Verification of the conversation-orchestration backend: agents, chat
sessions, messages, and the text/voice message pipelines.

The persistence layer is modelled as a `Store` of rows in insertion order;
SQL `SELECT ... ORDER BY created_at ASC` is modelled as a stable insertion
sort on the creation timestamp (primary keys are unique, so `scalar_one_or_none`
is `List.find?`).  The three AI-gateway capabilities (`completeChat`,
`transcribe`, `synthesize`) are passed in as `Except`-returning functions;
an orchestrator never catches their errors, so a gateway failure is
returned as an `upstream` error together with the store as committed so far
(each commit in the source is independent, so the store at the failure
point is exactly what remains durable).  Fresh row ids and wall-clock
timestamps are passed explicitly as arguments.
-/

namespace AgentPlatform

/-- A row of the `agents` table (`app/models.py`, class `Agent`). -/
structure AgentRow where
  id : String
  name : String
  prompt : String
  created_at : Nat
  updated_at : Nat
deriving DecidableEq

/-- A row of the `sessions` table (`app/models.py`, class `ChatSession`). -/
structure SessionRow where
  id : String
  agent_id : String
  title : Option String
  created_at : Nat
deriving DecidableEq

/-- A row of the `messages` table (`app/models.py`, class `Message`). -/
structure MessageRow where
  id : String
  session_id : String
  role : String
  content : String
  audio_url : Option String
  created_at : Nat
deriving DecidableEq

/-- The persistence store: all three tables, each in row-insertion order. -/
structure Store where
  agents : List AgentRow
  sessions : List SessionRow
  messages : List MessageRow
deriving DecidableEq

/-- One `{role, content}` entry of the list handed to the chat-completion
gateway (`_build_conversation_history` in `app/routers/messages.py`). -/
structure ChatMsg where
  role : String
  content : String
deriving DecidableEq

/-- Domain errors surfaced by the handlers: the two 404 flavours raised via
`HTTPException`, and an uncaught AI-gateway failure propagating out of the
orchestrator (HTTP 500-class). -/
inductive ApiError where
  | notFoundAgent (agentId : String)
  | notFoundSession (sessionId : String) (agentId : String)
  | upstream (msg : String)
deriving DecidableEq

/-- `select(Agent).where(Agent.id == agent_id)` + `scalar_one_or_none()`:
`id` is the primary key, so the first match is the only match. -/
def getAgent (st : Store) (agentId : String) : Option AgentRow :=
  st.agents.find? (fun a => a.id == agentId)

/-- `_get_session_or_404`'s query: session matched by id *and* owning agent. -/
def getSessionForAgent (st : Store) (sessionId agentId : String) :
    Option SessionRow :=
  st.sessions.find? (fun s => s.id == sessionId && s.agent_id == agentId)

/-- Comparison used by `ORDER BY created_at ASC`. -/
def createdLE (a b : MessageRow) : Prop := a.created_at ≤ b.created_at

instance : DecidableRel createdLE := fun a b => Nat.decLe a.created_at b.created_at

instance : IsTotal MessageRow createdLE := ⟨fun a b => Nat.le_total a.created_at b.created_at⟩

instance : IsTrans MessageRow createdLE := ⟨fun _ _ _ h h2 => Nat.le_trans h h2⟩

instance : IsRefl MessageRow createdLE := ⟨fun a => Nat.le_refl a.created_at⟩

/-- The session's messages as returned by
`select(Message).where(Message.session_id == session_id).order_by(Message.created_at.asc())`:
rows filtered to the session, stably sorted by creation timestamp (ties keep
table insertion order). -/
def sessionMessages (st : Store) (sessionId : String) : List MessageRow :=
  List.insertionSort createdLE
    (st.messages.filter (fun m => m.session_id == sessionId))

/-- `_build_conversation_history`: the ordered history projected to
`{role, content}` pairs. -/
def buildConversationHistory (st : Store) (sessionId : String) : List ChatMsg :=
  (sessionMessages st sessionId).map (fun m => ⟨m.role, m.content⟩)

/-- `send_message` (POST .../messages): resolve agent and session, commit the
user message, build system-plus-history prompt, call the chat gateway, commit
the assistant message.  Returns the store as committed so far together with
either the message pair or the error. -/
def send_message (chat : List ChatMsg → Except String String)
    (st : Store) (agentId sessionId content : String)
    (uid1 uid2 : String) (t1 t2 : Nat) :
    Store × Except ApiError (MessageRow × MessageRow) :=
  match getAgent st agentId with
  | none => (st, .error (.notFoundAgent agentId))
  | some agent =>
    match getSessionForAgent st sessionId agentId with
    | none => (st, .error (.notFoundSession sessionId agentId))
    | some _ =>
      let userMessage : MessageRow := ⟨uid1, sessionId, "user", content, none, t1⟩
      let st1 : Store := { st with messages := st.messages ++ [userMessage] }
      let conversation := buildConversationHistory st1 sessionId
      let fullMessages : List ChatMsg := ⟨"system", agent.prompt⟩ :: conversation
      match chat fullMessages with
      | .error e => (st1, .error (.upstream e))
      | .ok assistantText =>
        let assistantMessage : MessageRow :=
          ⟨uid2, sessionId, "assistant", assistantText, none, t2⟩
        ({ st1 with messages := st1.messages ++ [assistantMessage] },
         .ok (userMessage, assistantMessage))

/-- `list_messages` (GET .../messages): resolve agent and session, return the
ordered history. -/
def list_messages (st : Store) (agentId sessionId : String) :
    Except ApiError (List MessageRow) :=
  match getAgent st agentId with
  | none => .error (.notFoundAgent agentId)
  | some _ =>
    match getSessionForAgent st sessionId agentId with
    | none => .error (.notFoundSession sessionId agentId)
    | some _ => .ok (sessionMessages st sessionId)

/-- `voice_interaction` (POST .../voice): resolve agent and session, transcribe,
commit the user message, chat-complete, commit the assistant message with no
audio reference, synthesize, then update the assistant message's `audio_url`
to `/api/audio/{uuid hex}.mp3`.  `audioUuidHex` is the generated unique
filename stem. -/
def voice_interaction
    (transcribe : List Nat → Except String String)
    (chat : List ChatMsg → Except String String)
    (synthesize : String → Except String Unit)
    (st : Store) (agentId sessionId : String) (audioBytes : List Nat)
    (uid1 uid2 audioUuidHex : String) (t1 t2 : Nat) :
    Store × Except ApiError (MessageRow × MessageRow) :=
  match getAgent st agentId with
  | none => (st, .error (.notFoundAgent agentId))
  | some agent =>
    match getSessionForAgent st sessionId agentId with
    | none => (st, .error (.notFoundSession sessionId agentId))
    | some _ =>
      match transcribe audioBytes with
      | .error e => (st, .error (.upstream e))
      | .ok transcriptionText =>
        let userMessage : MessageRow :=
          ⟨uid1, sessionId, "user", transcriptionText, none, t1⟩
        let st1 : Store := { st with messages := st.messages ++ [userMessage] }
        let conversation := buildConversationHistory st1 sessionId
        let fullMessages : List ChatMsg := ⟨"system", agent.prompt⟩ :: conversation
        match chat fullMessages with
        | .error e => (st1, .error (.upstream e))
        | .ok assistantText =>
          let assistantMessage : MessageRow :=
            ⟨uid2, sessionId, "assistant", assistantText, none, t2⟩
          let st2 : Store := { st1 with messages := st1.messages ++ [assistantMessage] }
          let audioFilename := audioUuidHex ++ ".mp3"
          match synthesize assistantText with
          | .error e => (st2, .error (.upstream e))
          | .ok _ =>
            let audioUrl := "/api/audio/" ++ audioFilename
            ({ st2 with messages := st2.messages.map (fun m =>
                if m.id == uid2 then { m with audio_url := some audioUrl } else m) },
             .ok (userMessage, { assistantMessage with audio_url := some audioUrl }))

/-- Number of existing sessions for an agent
(`select(func.count()).select_from(ChatSession).where(...)`). -/
def countSessions (st : Store) (agentId : String) : Nat :=
  (st.sessions.filter (fun s => s.agent_id == agentId)).length

/-- Python's `lstrip("0")`: drop every leading `'0'` character. -/
def lstripZeros (s : String) : String := ⟨s.data.dropWhile (fun c => c == '0')⟩

/-- Two-digit zero-padded field of `strftime` (`%I`, `%M`, `%S`). -/
def two_digit (n : Nat) : String :=
  if n < 10 then "0" ++ toString n else toString n

/-- `%I`: 12-hour clock hour (01-12) from a 24-hour clock hour. -/
def hour12 (h : Nat) : Nat := (h + 11) % 12 + 1

/-- `%p`: AM/PM marker from a 24-hour clock hour. -/
def ampm (h : Nat) : String := if h < 12 then "AM" else "PM"

/-- `now.strftime("%I:%M:%S %p")`. -/
def strftimeIMSp (h m s : Nat) : String :=
  two_digit (hour12 h) ++ ":" ++ two_digit m ++ ":" ++ two_digit s ++ " " ++ ampm h

/-- The generated default title: `f"Chat {n} ({time_str})"` with
`n = count + 1` and `time_str = now.strftime("%I:%M:%S %p").lstrip("0")`. -/
def default_title (sessionCount h m s : Nat) : String :=
  "Chat " ++ toString (sessionCount + 1) ++ " (" ++ lstripZeros (strftimeIMSp h m s) ++ ")"

/-- `create_session` (POST /agents/{agent_id}/sessions): resolve the agent;
`if not title:` (absent *or* empty string) generate the default title from
the current session count and wall-clock time `(h, m, s)`; commit the row. -/
def create_session (st : Store) (agentId : String) (payloadTitle : Option String)
    (sid : String) (h m s tNow : Nat) :
    Store × Except ApiError SessionRow :=
  match getAgent st agentId with
  | none => (st, .error (.notFoundAgent agentId))
  | some _ =>
    let title :=
      match payloadTitle with
      | none => default_title (countSessions st agentId) h m s
      | some t => if t = "" then default_title (countSessions st agentId) h m s else t
    let session : SessionRow := ⟨sid, agentId, some title, tNow⟩
    ({ st with sessions := st.sessions ++ [session] }, .ok session)

/-- `get_agent` (GET /agents/{agent_id}). -/
def get_agent (st : Store) (agentId : String) : Except ApiError AgentRow :=
  match getAgent st agentId with
  | none => .error (.notFoundAgent agentId)
  | some a => .ok a

/-- `get_session` (GET /agents/{agent_id}/sessions/{session_id}): agent is
resolved first, then the session by id and owning agent. -/
def get_session (st : Store) (agentId sessionId : String) :
    Except ApiError SessionRow :=
  match getAgent st agentId with
  | none => .error (.notFoundAgent agentId)
  | some _ =>
    match getSessionForAgent st sessionId agentId with
    | none => .error (.notFoundSession sessionId agentId)
    | some s => .ok s

/-- The partial update body of `PUT /agents/{agent_id}` (`AgentUpdate` in
`app/schemas.py`); `none` models a field absent from the request
(`model_dump(exclude_unset=True)` drops it). -/
structure AgentUpdate where
  name : Option String
  prompt : Option String
deriving DecidableEq

/-- `update_agent` (PUT /agents/{agent_id}): set exactly the fields present in
the body; the ORM's `onupdate` bumps `updated_at` when a field is written. -/
def update_agent (st : Store) (agentId : String) (payload : AgentUpdate)
    (tNow : Nat) : Store × Except ApiError AgentRow :=
  match getAgent st agentId with
  | none => (st, .error (.notFoundAgent agentId))
  | some agent =>
    let updated : AgentRow :=
      { agent with
        name := payload.name.getD agent.name
        prompt := payload.prompt.getD agent.prompt
        updated_at :=
          if payload.name.isSome || payload.prompt.isSome then tNow
          else agent.updated_at }
    ({ st with agents := st.agents.map (fun a => if a.id == agentId then updated else a) },
     .ok updated)

/-- `delete_agent` (DELETE /agents/{agent_id}): the ORM cascade
(`cascade="all, delete-orphan"` on `Agent.sessions` and `ChatSession.messages`)
removes the agent, its sessions, and those sessions' messages. -/
def delete_agent (st : Store) (agentId : String) : Store × Except ApiError Unit :=
  match getAgent st agentId with
  | none => (st, .error (.notFoundAgent agentId))
  | some _ =>
    let deletedSessionIds :=
      (st.sessions.filter (fun s => s.agent_id == agentId)).map (fun s => s.id)
    ({ agents := st.agents.filter (fun a => !(a.id == agentId)),
       sessions := st.sessions.filter (fun s => !(s.agent_id == agentId)),
       messages := st.messages.filter (fun m => !(deletedSessionIds.contains m.session_id)) },
     .ok ())

/-! ### Derived views of the orchestration steps -/

/-- The store right after the step-3 commit of the user message. -/
def withUserMessage (st : Store) (sessionId content uid1 : String) (t1 : Nat) : Store :=
  { st with messages := st.messages ++ [⟨uid1, sessionId, "user", content, none, t1⟩] }

/-- The exact list handed to the chat-completion gateway: one synthetic
system-role entry holding the agent's prompt, then the ordered history. -/
def gatewayPrompt (agent : AgentRow) (st : Store) (sessionId : String) : List ChatMsg :=
  ⟨"system", agent.prompt⟩ :: buildConversationHistory st sessionId

/-! ### Helper lemmas -/

theorem str_data_append (a b : String) : (a ++ b).data = a.data ++ b.data := rfl

theorem str_append_assoc (a b c : String) : a ++ b ++ c = a ++ (b ++ c) :=
  congrArg String.mk (List.append_assoc a.data b.data c.data)

theorem lstripZeros_zero_cons (l : List Char) : lstripZeros ⟨'0' :: l⟩ = lstripZeros ⟨l⟩ := by
  simp [lstripZeros, List.dropWhile]

theorem lstripZeros_ne_cons (c : Char) (l : List Char) (hc : (c == '0') = false) :
    lstripZeros ⟨c :: l⟩ = ⟨c :: l⟩ := by
  simp [lstripZeros, List.dropWhile, hc]

theorem lstripZeros_toString_append (k : Nat) (h1 : 1 ≤ k) (h2 : k ≤ 12) (X : String) :
    lstripZeros (toString k ++ X) = toString k ++ X := by
  interval_cases k <;> exact lstripZeros_ne_cons _ _ (by decide)

theorem orderedInsert_append_last {α : Type} (r : α → α → Prop) [DecidableRel r]
    (x u : α) (l : List α) (h : r x u) :
    List.orderedInsert r x (l ++ [u]) = List.orderedInsert r x l ++ [u] := by
  induction l with
  | nil => simp [List.orderedInsert, h]
  | cons b t ih =>
    simp only [List.cons_append, List.orderedInsert]
    by_cases hb : r x b
    · simp [hb]
    · simp [hb, ih]

theorem insertionSort_append_last {α : Type} (r : α → α → Prop) [DecidableRel r]
    (u : α) (l : List α) (h : ∀ x ∈ l, r x u) :
    List.insertionSort r (l ++ [u]) = List.insertionSort r l ++ [u] := by
  induction l with
  | nil => simp
  | cons b t ih =>
    rw [show (b :: t) ++ [u] = b :: (t ++ [u]) from rfl, List.insertionSort, List.insertionSort]
    rw [ih (fun x hx => h x (List.mem_cons_of_mem _ hx))]
    exact orderedInsert_append_last r b u _ (h b (List.mem_cons_self b t))

/-- Committing the user message appends it at the end of the ordered history,
provided every earlier message of the session carries a timestamp ≤ `t1`. -/
theorem sessionMessages_withUser (st : Store) (sessionId content uid1 : String) (t1 : Nat)
    (hmono : ∀ m ∈ st.messages, m.session_id = sessionId → m.created_at ≤ t1) :
    sessionMessages (withUserMessage st sessionId content uid1 t1) sessionId =
      sessionMessages st sessionId ++ [⟨uid1, sessionId, "user", content, none, t1⟩] := by
  unfold sessionMessages withUserMessage
  rw [List.filter_append]
  have hone : List.filter (fun m => m.session_id == sessionId)
      [(⟨uid1, sessionId, "user", content, none, t1⟩ : MessageRow)] =
      [⟨uid1, sessionId, "user", content, none, t1⟩] := by simp
  rw [hone]
  apply insertionSort_append_last
  intro x hx
  have hx2 := List.mem_filter.mp hx
  exact hmono x hx2.1 (by simpa using hx2.2)

/-- The freshly committed user message occurs in the ordered history exactly
once (its generated id is fresh). -/
theorem sessionMessages_withUser_count (st : Store) (sessionId content uid1 : String) (t1 : Nat)
    (hfresh : ∀ m ∈ st.messages, m.id ≠ uid1) :
    (sessionMessages (withUserMessage st sessionId content uid1 t1) sessionId).countP
      (fun m => m.id == uid1) = 1 := by
  unfold sessionMessages withUserMessage
  rw [(List.perm_insertionSort createdLE _).countP_eq]
  rw [List.filter_append, List.countP_append]
  have h0 : (List.filter (fun m => m.session_id == sessionId) st.messages).countP
      (fun m => m.id == uid1) = 0 := by
    apply List.countP_eq_zero.mpr
    intro m hm
    have := hfresh m (List.mem_filter.mp hm).1
    simp [this]
  simp [h0]

/-! ### Concrete fixture used by the witnesses -/

def agentA : AgentRow := ⟨"agent-1", "My Agent", "You are a helpful assistant.", 0, 0⟩

def agentB : AgentRow := ⟨"agent-2", "Second Agent", "You are terse.", 0, 0⟩

def sessA : SessionRow := ⟨"sess-1", "agent-1", some "Chat 1 (1:00:00 AM)", 1⟩

def st0 : Store := ⟨[agentA, agentB], [sessA], []⟩

/-- Two sessions already stored for `agent-1`: the next default title is 3. -/
def st2sess : Store := ⟨[agentA, agentB],
  [sessA, ⟨"sess-2", "agent-1", some "Session A", 2⟩], []⟩

/-- Two agents, each with a session and a message: cascade-delete fixture. -/
def stTwo : Store := ⟨[agentA, agentB],
  [sessA, ⟨"sess-9", "agent-2", some "B1", 3⟩],
  [⟨"m-1", "sess-1", "user", "hi", none, 4⟩,
   ⟨"m-9", "sess-9", "user", "yo", none, 5⟩]⟩

/-- Two messages sharing one creation timestamp: a tie for the ordering. -/
def stTie : Store := ⟨[agentA, agentB], [sessA],
  [⟨"m-1", "sess-1", "user", "Hi there", none, 5⟩,
   ⟨"m-2", "sess-1", "assistant", "Hello!", none, 5⟩]⟩

/-! ### C1 -/

/-- C1: for an existing agent and a session of that agent, a successful
`send_message` appends exactly one `user` message with the given text and
exactly one `assistant` message with the gateway's reply, both on the given
session, user first, returns exactly this pair, and the assistant message
carries no audio reference. -/
theorem send_message_persists_user_and_assistant
    (chat : List ChatMsg → Except String String)
    (st : Store) (agentId sessionId content uid1 uid2 : String) (t1 t2 : Nat)
    (agent : AgentRow) (sess : SessionRow) (replyText : String)
    (hagent : getAgent st agentId = some agent)
    (hsess : getSessionForAgent st sessionId agentId = some sess)
    (hchat : chat (gatewayPrompt agent (withUserMessage st sessionId content uid1 t1) sessionId)
      = .ok replyText) :
    send_message chat st agentId sessionId content uid1 uid2 t1 t2 =
      ({ st with messages := st.messages ++
            [⟨uid1, sessionId, "user", content, none, t1⟩,
             ⟨uid2, sessionId, "assistant", replyText, none, t2⟩] },
       .ok (⟨uid1, sessionId, "user", content, none, t1⟩,
            ⟨uid2, sessionId, "assistant", replyText, none, t2⟩)) := by
  simp only [gatewayPrompt, withUserMessage] at hchat
  simp only [send_message, hagent, hsess, hchat, List.append_assoc, List.cons_append,
    List.nil_append]

theorem send_message_persists_user_and_assistant_witness :
    send_message (fun _ => .ok "Hello! How can I help you?") st0 "agent-1" "sess-1" "Hi there"
        "msg-1" "msg-2" 2 3 =
      ({ st0 with messages := st0.messages ++
            [⟨"msg-1", "sess-1", "user", "Hi there", none, 2⟩,
             ⟨"msg-2", "sess-1", "assistant", "Hello! How can I help you?", none, 3⟩] },
       .ok (⟨"msg-1", "sess-1", "user", "Hi there", none, 2⟩,
            ⟨"msg-2", "sess-1", "assistant", "Hello! How can I help you?", none, 3⟩)) :=
  send_message_persists_user_and_assistant (fun _ => .ok "Hello! How can I help you?")
    st0 "agent-1" "sess-1" "Hi there" "msg-1" "msg-2" 2 3 agentA sessA
    "Hello! How can I help you?" (by rfl) (by rfl) (by rfl)

/-! ### C2 -/

/-- C2: in both the text and the voice flow, the orchestrator consults the
chat gateway exactly at the list made of one synthetic system entry (the
agent's prompt) followed by the full persisted history in creation order, and
that history contains the user message committed earlier in the same
operation exactly once. -/
theorem gateway_prompt_is_system_then_history
    (st : Store) (agentId sessionId content uid1 : String) (t1 : Nat)
    (agent : AgentRow) (sess : SessionRow)
    (hagent : getAgent st agentId = some agent)
    (hsess : getSessionForAgent st sessionId agentId = some sess)
    (hfresh : ∀ m ∈ st.messages, m.id ≠ uid1)
    (hmono : ∀ m ∈ st.messages, m.session_id = sessionId → m.created_at ≤ t1) :
    (buildConversationHistory (withUserMessage st sessionId content uid1 t1) sessionId =
        buildConversationHistory st sessionId ++ [⟨"user", content⟩])
    ∧ ((sessionMessages (withUserMessage st sessionId content uid1 t1) sessionId).countP
        (fun m => m.id == uid1) = 1)
    ∧ (∀ chat1 chat2 uid2 t2,
        chat1 (gatewayPrompt agent (withUserMessage st sessionId content uid1 t1) sessionId) =
          chat2 (gatewayPrompt agent (withUserMessage st sessionId content uid1 t1) sessionId) →
        send_message chat1 st agentId sessionId content uid1 uid2 t1 t2 =
          send_message chat2 st agentId sessionId content uid1 uid2 t1 t2)
    ∧ (∀ transcribe chat1 chat2 synthesize audioBytes uid2 hex t2,
        transcribe audioBytes = .ok content →
        chat1 (gatewayPrompt agent (withUserMessage st sessionId content uid1 t1) sessionId) =
          chat2 (gatewayPrompt agent (withUserMessage st sessionId content uid1 t1) sessionId) →
        voice_interaction transcribe chat1 synthesize st agentId sessionId audioBytes
            uid1 uid2 hex t1 t2 =
          voice_interaction transcribe chat2 synthesize st agentId sessionId audioBytes
            uid1 uid2 hex t1 t2) := by
  refine ⟨?_, ?_, ?_, ?_⟩
  · rw [buildConversationHistory, buildConversationHistory,
      sessionMessages_withUser st sessionId content uid1 t1 hmono, List.map_append]
    rfl
  · exact sessionMessages_withUser_count st sessionId content uid1 t1 hfresh
  · intro chat1 chat2 uid2 t2 hEq
    simp only [gatewayPrompt, withUserMessage] at hEq
    simp only [send_message, hagent, hsess]
    rw [hEq]
  · intro transcribe chat1 chat2 synthesize audioBytes uid2 hex t2 htr hEq
    simp only [gatewayPrompt, withUserMessage] at hEq
    simp only [voice_interaction, hagent, hsess, htr]
    rw [hEq]

theorem gateway_prompt_is_system_then_history_witness :
    (buildConversationHistory (withUserMessage st0 "sess-1" "Hi there" "msg-1" 2) "sess-1" =
        buildConversationHistory st0 "sess-1" ++ [⟨"user", "Hi there"⟩])
    ∧ ((sessionMessages (withUserMessage st0 "sess-1" "Hi there" "msg-1" 2) "sess-1").countP
        (fun m => m.id == "msg-1") = 1) :=
  ⟨(gateway_prompt_is_system_then_history st0 "agent-1" "sess-1" "Hi there" "msg-1" 2
      agentA sessA (by rfl) (by rfl) (by simp [st0]) (by simp [st0])).1,
   (gateway_prompt_is_system_then_history st0 "agent-1" "sess-1" "Hi there" "msg-1" 2
      agentA sessA (by rfl) (by rfl) (by simp [st0]) (by simp [st0])).2.1⟩

/-! ### C3 -/

/-- C3: if the chat gateway fails during the text flow, the error propagates
uncaught as an upstream failure and the store afterwards is exactly the
pre-call commit: the user message is durably stored and no assistant message
was added. -/
theorem send_message_upstream_failure_keeps_user_message
    (chat : List ChatMsg → Except String String)
    (st : Store) (agentId sessionId content uid1 uid2 : String) (t1 t2 : Nat)
    (agent : AgentRow) (sess : SessionRow) (e : String)
    (hagent : getAgent st agentId = some agent)
    (hsess : getSessionForAgent st sessionId agentId = some sess)
    (hchat : chat (gatewayPrompt agent (withUserMessage st sessionId content uid1 t1) sessionId)
      = .error e) :
    send_message chat st agentId sessionId content uid1 uid2 t1 t2 =
      (withUserMessage st sessionId content uid1 t1, .error (.upstream e)) := by
  simp only [gatewayPrompt, withUserMessage] at hchat
  simp only [send_message, withUserMessage, hagent, hsess, hchat]

theorem send_message_upstream_failure_keeps_user_message_witness :
    send_message (fun _ => .error "rate limited") st0 "agent-1" "sess-1" "Hi there"
        "msg-1" "msg-2" 2 3 =
      (withUserMessage st0 "sess-1" "Hi there" "msg-1" 2, .error (.upstream "rate limited")) :=
  send_message_upstream_failure_keeps_user_message (fun _ => .error "rate limited")
    st0 "agent-1" "sess-1" "Hi there" "msg-1" "msg-2" 2 3 agentA sessA "rate limited"
    (by rfl) (by rfl) (by rfl)

/-! ### C4 -/

/-- The step-8 update writes the audio reference onto exactly the assistant
message just committed: every other row keeps its (absent) audio reference. -/
theorem map_setAudio_append (uid2 url : String) (msgs : List MessageRow) (user asst : MessageRow)
    (hfresh : ∀ m ∈ msgs, m.id ≠ uid2) (huser : user.id ≠ uid2) (hasst : asst.id = uid2) :
    (msgs ++ [user] ++ [asst]).map
        (fun m => if m.id == uid2 then { m with audio_url := some url } else m) =
      msgs ++ [user] ++ [{ asst with audio_url := some url }] := by
  rw [List.map_append, List.map_append]
  have h1 : msgs.map (fun m => if m.id == uid2 then { m with audio_url := some url } else m) =
      msgs := by
    rw [List.map_congr_left (fun m hm => ?_), List.map_id]
    simp [hfresh m hm]
  have h2 : [user].map (fun m => if m.id == uid2 then { m with audio_url := some url } else m) =
      [user] := by simp [huser]
  have h3 : [asst].map (fun m => if m.id == uid2 then { m with audio_url := some url } else m) =
      [{ asst with audio_url := some url }] := by simp [hasst]
  rw [h1, h2, h3]

/-- A successful text-flow pair never carries an audio reference. -/
theorem send_message_ok_audio_none
    (chat : List ChatMsg → Except String String)
    (st : Store) (agentId sessionId content uid1 uid2 : String) (t1 t2 : Nat)
    (st2 : Store) (um am : MessageRow)
    (h : send_message chat st agentId sessionId content uid1 uid2 t1 t2 = (st2, .ok (um, am))) :
    um.audio_url = none ∧ am.audio_url = none := by
  unfold send_message at h
  split at h
  · simp at h
  · split at h
    · simp at h
    · dsimp only at h
      split at h
      · simp at h
      · rw [Prod.mk.injEq] at h
        obtain ⟨-, h2⟩ := h
        rw [Except.ok.injEq, Prod.mk.injEq] at h2
        obtain ⟨hu, ha⟩ := h2
        exact ⟨by rw [← hu], by rw [← ha]⟩

/-- C4: the voice flow commits the assistant message with no audio reference
before synthesis and sets `audio_url` (to `/api/audio/{hex}.mp3`) only by the
step-8 update after `synthesize` succeeds; a synthesis failure leaves both
messages persisted with the assistant's `audio_url` absent, and the text flow
never sets an audio reference. -/
theorem audio_url_only_after_synthesis
    (transcribe : List Nat → Except String String)
    (chat : List ChatMsg → Except String String)
    (synthesize : String → Except String Unit)
    (st : Store) (agentId sessionId : String) (audioBytes : List Nat)
    (uid1 uid2 hex : String) (t1 t2 : Nat)
    (agent : AgentRow) (sess : SessionRow) (transcription replyText : String)
    (hagent : getAgent st agentId = some agent)
    (hsess : getSessionForAgent st sessionId agentId = some sess)
    (htr : transcribe audioBytes = .ok transcription)
    (hchat : chat (gatewayPrompt agent (withUserMessage st sessionId transcription uid1 t1)
      sessionId) = .ok replyText)
    (hfresh : ∀ m ∈ st.messages, m.id ≠ uid2)
    (huid : uid1 ≠ uid2) :
    (∀ e, synthesize replyText = .error e →
      voice_interaction transcribe chat synthesize st agentId sessionId audioBytes
          uid1 uid2 hex t1 t2 =
        ({ st with messages := st.messages ++
              [⟨uid1, sessionId, "user", transcription, none, t1⟩,
               ⟨uid2, sessionId, "assistant", replyText, none, t2⟩] },
         .error (.upstream e)))
    ∧ (synthesize replyText = .ok () →
      voice_interaction transcribe chat synthesize st agentId sessionId audioBytes
          uid1 uid2 hex t1 t2 =
        ({ st with messages := st.messages ++
              [⟨uid1, sessionId, "user", transcription, none, t1⟩,
               ⟨uid2, sessionId, "assistant", replyText,
                 some ("/api/audio/" ++ (hex ++ ".mp3")), t2⟩] },
         .ok (⟨uid1, sessionId, "user", transcription, none, t1⟩,
              ⟨uid2, sessionId, "assistant", replyText,
                some ("/api/audio/" ++ (hex ++ ".mp3")), t2⟩)))
    ∧ (∀ chat2 stB agentId2 sessionId2 content2 u1 u2 s1 s2 stOut um am,
        send_message chat2 stB agentId2 sessionId2 content2 u1 u2 s1 s2 = (stOut, .ok (um, am)) →
        um.audio_url = none ∧ am.audio_url = none) := by
  simp only [gatewayPrompt, withUserMessage] at hchat
  refine ⟨?_, ?_, ?_⟩
  · intro e hsynth
    simp only [voice_interaction, hagent, hsess, htr, hchat, hsynth, List.append_assoc,
      List.cons_append, List.nil_append]
  · intro hsynth
    simp only [voice_interaction, hagent, hsess, htr, hchat, hsynth]
    rw [map_setAudio_append uid2 ("/api/audio/" ++ (hex ++ ".mp3")) st.messages
      ⟨uid1, sessionId, "user", transcription, none, t1⟩
      ⟨uid2, sessionId, "assistant", replyText, none, t2⟩ hfresh huid rfl]
    simp only [List.append_assoc, List.cons_append, List.nil_append]
  · intro chat2 stB agentId2 sessionId2 content2 u1 u2 s1 s2 stOut um am h
    exact send_message_ok_audio_none chat2 stB agentId2 sessionId2 content2 u1 u2 s1 s2
      stOut um am h

theorem audio_url_only_after_synthesis_witness :
    voice_interaction (fun _ => .ok "Hello voice") (fun _ => .ok "Hello from AI")
        (fun _ => .ok ()) st0 "agent-1" "sess-1" [1, 2, 3] "msg-1" "msg-2" "abc123" 2 3 =
      ({ st0 with messages := st0.messages ++
            [⟨"msg-1", "sess-1", "user", "Hello voice", none, 2⟩,
             ⟨"msg-2", "sess-1", "assistant", "Hello from AI",
               some ("/api/audio/" ++ ("abc123" ++ ".mp3")), 3⟩] },
       .ok (⟨"msg-1", "sess-1", "user", "Hello voice", none, 2⟩,
            ⟨"msg-2", "sess-1", "assistant", "Hello from AI",
              some ("/api/audio/" ++ ("abc123" ++ ".mp3")), 3⟩)) :=
  (audio_url_only_after_synthesis (fun _ => .ok "Hello voice") (fun _ => .ok "Hello from AI")
    (fun _ => .ok ()) st0 "agent-1" "sess-1" [1, 2, 3] "msg-1" "msg-2" "abc123" 2 3
    agentA sessA "Hello voice" "Hello from AI"
    (by rfl) (by rfl) (by rfl) (by rfl) (by simp [st0]) (by decide)).2.1 (by rfl)

/-! ### C5 -/

/-- C5: whenever no session row matches the given id under the given agent —
the id is absent, or the session's owning agent differs (the cross-agent
case) — `send_message`, `voice_interaction`, `list_messages` and
`get_session` all fail with the session-flavoured NotFound, the store is
unchanged (no message persisted), and the result does not depend on any
gateway function (none is consulted). -/
theorem session_mismatch_not_found
    (st : Store) (agentId sessionId : String) (agent : AgentRow)
    (hagent : getAgent st agentId = some agent)
    (hmiss : ∀ s ∈ st.sessions, s.id = sessionId → s.agent_id ≠ agentId) :
    (∀ chat content uid1 uid2 t1 t2,
      send_message chat st agentId sessionId content uid1 uid2 t1 t2 =
        (st, .error (.notFoundSession sessionId agentId)))
    ∧ (∀ transcribe chat synthesize audioBytes uid1 uid2 hex t1 t2,
      voice_interaction transcribe chat synthesize st agentId sessionId audioBytes
          uid1 uid2 hex t1 t2 = (st, .error (.notFoundSession sessionId agentId)))
    ∧ list_messages st agentId sessionId = .error (.notFoundSession sessionId agentId)
    ∧ get_session st agentId sessionId = .error (.notFoundSession sessionId agentId) := by
  have hnone : getSessionForAgent st sessionId agentId = none := by
    apply List.find?_eq_none.mpr
    intro s hs hmatch
    rw [Bool.and_eq_true, beq_iff_eq, beq_iff_eq] at hmatch
    exact hmiss s hs hmatch.1 hmatch.2
  refine ⟨?_, ?_, ?_, ?_⟩
  · intro chat content uid1 uid2 t1 t2
    simp only [send_message, hagent, hnone]
  · intro transcribe chat synthesize audioBytes uid1 uid2 hex t1 t2
    simp only [voice_interaction, hagent, hnone]
  · simp only [list_messages, hagent, hnone]
  · simp only [get_session, hagent, hnone]

theorem session_mismatch_not_found_witness :
    send_message (fun _ => .ok "reply") st0 "agent-2" "sess-1" "Hi" "m1" "m2" 2 3 =
      (st0, .error (.notFoundSession "sess-1" "agent-2"))
    ∧ get_session st0 "agent-2" "sess-1" = .error (.notFoundSession "sess-1" "agent-2") :=
  ⟨(session_mismatch_not_found st0 "agent-2" "sess-1" agentB (by rfl) (by decide)).1
      (fun _ => .ok "reply") "Hi" "m1" "m2" 2 3,
   (session_mismatch_not_found st0 "agent-2" "sess-1" agentB (by rfl) (by decide)).2.2.2⟩

/-! ### C6 -/

/-- C6: for an existing agent and session, `list_messages` returns the
session's messages, a permutation of the persisted rows of the session,
sorted by creation timestamp; and whenever the persisted insertion order is
already non-decreasing in `created_at` (in particular across equal
timestamps), the returned history is exactly the persisted insertion order
— ties are broken by insertion order. -/
theorem list_messages_creation_order
    (st : Store) (agentId sessionId : String) (agent : AgentRow) (sess : SessionRow)
    (hagent : getAgent st agentId = some agent)
    (hsess : getSessionForAgent st sessionId agentId = some sess) :
    list_messages st agentId sessionId = .ok (sessionMessages st sessionId)
    ∧ (sessionMessages st sessionId).Perm
        (st.messages.filter (fun m => m.session_id == sessionId))
    ∧ List.Sorted createdLE (sessionMessages st sessionId)
    ∧ ((st.messages.filter (fun m => m.session_id == sessionId)).Pairwise createdLE →
        sessionMessages st sessionId =
          st.messages.filter (fun m => m.session_id == sessionId)) := by
  refine ⟨?_, ?_, ?_, ?_⟩
  · simp only [list_messages, hagent, hsess]
  · exact List.perm_insertionSort createdLE _
  · exact List.sorted_insertionSort createdLE _
  · intro hsorted
    exact List.Sorted.insertionSort_eq hsorted

theorem list_messages_creation_order_witness :
    list_messages stTie "agent-1" "sess-1" = .ok (sessionMessages stTie "sess-1")
    ∧ sessionMessages stTie "sess-1" =
        stTie.messages.filter (fun m => m.session_id == "sess-1") :=
  ⟨(list_messages_creation_order stTie "agent-1" "sess-1" agentA sessA (by rfl) (by rfl)).1,
   (list_messages_creation_order stTie "agent-1" "sess-1" agentA sessA (by rfl) (by rfl)).2.2.2
     (by decide)⟩

/-! ### C7 -/

/-- `lstrip("0")` on the `%I:%M:%S %p` string erases exactly the zero-padding
of the hour: the hour field reads as the plain decimal of the 12-hour value,
with no leading zero. -/
theorem lstripZeros_strftime (h m s : Nat) :
    lstripZeros (strftimeIMSp h m s) =
      toString (hour12 h) ++ ":" ++ two_digit m ++ ":" ++ two_digit s ++ " " ++ ampm h := by
  have hk1 : 1 ≤ hour12 h := by unfold hour12; omega
  have hk2 : hour12 h ≤ 12 := by unfold hour12; omega
  unfold strftimeIMSp
  simp only [str_append_assoc]
  by_cases hlt : hour12 h < 10
  · rw [show two_digit (hour12 h) = "0" ++ toString (hour12 h) from by simp [two_digit, hlt]]
    rw [str_append_assoc]
    rw [show ∀ Y : String, lstripZeros ("0" ++ Y) = lstripZeros Y from
      fun Y => lstripZeros_zero_cons Y.data]
    exact lstripZeros_toString_append _ hk1 hk2 _
  · rw [show two_digit (hour12 h) = toString (hour12 h) from by simp [two_digit, hlt]]
    exact lstripZeros_toString_append _ hk1 hk2 _

/-- C7: a session created without an explicit title gets, at creation time,
the title `"Chat {n} ({h:mm:ss AM/PM})"` where `n` is the agent's current
session count plus one and the hour carries no leading zero; the third
session's title starts with `"Chat 3 ("`; and no later operation of the
system rewrites the stored sessions, so the title is never recomputed. -/
theorem default_session_title_generation
    (st : Store) (agentId sid : String) (h m s tNow : Nat)
    (agent : AgentRow)
    (hagent : getAgent st agentId = some agent) :
    (create_session st agentId none sid h m s tNow =
      ({ st with sessions := st.sessions ++
          [⟨sid, agentId, some (default_title (countSessions st agentId) h m s), tNow⟩] },
       .ok ⟨sid, agentId, some (default_title (countSessions st agentId) h m s), tNow⟩))
    ∧ (default_title (countSessions st agentId) h m s =
        "Chat " ++ toString (countSessions st agentId + 1) ++ " (" ++
          (toString (hour12 h) ++ ":" ++ two_digit m ++ ":" ++ two_digit s ++ " " ++ ampm h)
          ++ ")")
    ∧ (countSessions st agentId = 2 →
        ∃ rest, default_title (countSessions st agentId) h m s = "Chat 3 (" ++ rest)
    ∧ (∀ st2 chat content uid1 uid2 t1 t2 aid2 sid2,
        ((send_message chat st2 aid2 sid2 content uid1 uid2 t1 t2).1).sessions = st2.sessions)
    ∧ (∀ st2 transcribe chat synthesize audioBytes uid1 uid2 hex t1 t2 aid2 sid2,
        ((voice_interaction transcribe chat synthesize st2 aid2 sid2 audioBytes uid1 uid2 hex
            t1 t2).1).sessions = st2.sessions)
    ∧ (∀ st2 aid2 payload tNow2,
        ((update_agent st2 aid2 payload tNow2).1).sessions = st2.sessions) := by
  refine ⟨?_, ?_, ?_, ?_, ?_, ?_⟩
  · simp only [create_session, hagent]
  · unfold default_title
    rw [lstripZeros_strftime]
  · intro hc
    refine ⟨lstripZeros (strftimeIMSp h m s) ++ ")", ?_⟩
    rw [hc]
    rfl
  · intro st2 chat content uid1 uid2 t1 t2 aid2 sid2
    unfold send_message
    repeat' first
    | rfl
    | split
    | dsimp only
  · intro st2 transcribe chat synthesize audioBytes uid1 uid2 hex t1 t2 aid2 sid2
    unfold voice_interaction
    repeat' first
    | rfl
    | split
    | dsimp only
  · intro st2 aid2 payload tNow2
    unfold update_agent
    split
    · rfl
    · rfl

theorem default_session_title_generation_witness :
    (create_session st2sess "agent-1" none "sess-3" 9 5 7 10 =
      ({ st2sess with sessions := st2sess.sessions ++
          [⟨"sess-3", "agent-1", some (default_title (countSessions st2sess "agent-1") 9 5 7),
            10⟩] },
       .ok ⟨"sess-3", "agent-1", some (default_title (countSessions st2sess "agent-1") 9 5 7),
            10⟩))
    ∧ (∃ rest, default_title (countSessions st2sess "agent-1") 9 5 7 = "Chat 3 (" ++ rest) :=
  ⟨(default_session_title_generation st2sess "agent-1" "sess-3" 9 5 7 10 agentA (by rfl)).1,
   (default_session_title_generation st2sess "agent-1" "sess-3" 9 5 7 10 agentA
      (by rfl)).2.2.1 (by decide)⟩

/-! ### C8 -/

/-- C8: deleting an existing agent removes the agent, all its sessions, and
all those sessions' messages; afterwards `get_agent` on the agent id and
`get_session`/`list_messages` on its session ids report NotFound, a deleted
session id is gone under every agent path, and agents, sessions and messages
belonging to other agents are untouched. -/
theorem delete_agent_cascade
    (st : Store) (agentId : String) (agent : AgentRow)
    (hagent : getAgent st agentId = some agent)
    (hnodup : (st.sessions.map (fun s => s.id)).Nodup) :
    ((delete_agent st agentId).2 = .ok ())
    ∧ (getAgent (delete_agent st agentId).1 agentId = none)
    ∧ (get_agent (delete_agent st agentId).1 agentId = .error (.notFoundAgent agentId))
    ∧ (∀ sess ∈ st.sessions, sess.agent_id = agentId →
        (∀ aid2, getSessionForAgent (delete_agent st agentId).1 sess.id aid2 = none)
        ∧ get_session (delete_agent st agentId).1 agentId sess.id =
            .error (.notFoundAgent agentId)
        ∧ list_messages (delete_agent st agentId).1 agentId sess.id =
            .error (.notFoundAgent agentId))
    ∧ (∀ msg ∈ st.messages,
        (∃ sess ∈ st.sessions, sess.id = msg.session_id ∧ sess.agent_id = agentId) →
        msg ∉ ((delete_agent st agentId).1).messages)
    ∧ (∀ a ∈ st.agents, a.id ≠ agentId → a ∈ ((delete_agent st agentId).1).agents)
    ∧ (∀ sess ∈ st.sessions, sess.agent_id ≠ agentId →
        sess ∈ ((delete_agent st agentId).1).sessions)
    ∧ (∀ msg ∈ st.messages,
        (∀ sess ∈ st.sessions, sess.id = msg.session_id → sess.agent_id ≠ agentId) →
        msg ∈ ((delete_agent st agentId).1).messages) := by
  have hinj := List.inj_on_of_nodup_map hnodup
  have hdel1 : (delete_agent st agentId).1 =
      { agents := st.agents.filter (fun a => !(a.id == agentId)),
        sessions := st.sessions.filter (fun s => !(s.agent_id == agentId)),
        messages := st.messages.filter (fun m =>
          !(((st.sessions.filter (fun s => s.agent_id == agentId)).map
              (fun s => s.id)).contains m.session_id)) } := by
    simp only [delete_agent, hagent]
  have hAgentsNone : getAgent (delete_agent st agentId).1 agentId = none := by
    rw [hdel1]
    apply List.find?_eq_none.mpr
    intro a ha hpa
    have h2 := (List.mem_filter.mp ha).2
    simp only [beq_iff_eq] at hpa
    simp [hpa] at h2
  refine ⟨?_, hAgentsNone, ?_, ?_, ?_, ?_, ?_, ?_⟩
  · simp only [delete_agent, hagent]
  · simp only [get_agent, hAgentsNone]
  · intro sess hsess hown
    refine ⟨?_, ?_, ?_⟩
    · intro aid2
      rw [hdel1]
      apply List.find?_eq_none.mpr
      intro s2 hs2 hp2
      have hmem2 := List.mem_filter.mp hs2
      rw [Bool.and_eq_true, beq_iff_eq, beq_iff_eq] at hp2
      have hsame : s2 = sess := hinj hmem2.1 hsess (by rw [hp2.1])
      rw [hsame, hown] at hmem2
      simp at hmem2
    · simp only [get_session, hAgentsNone]
    · simp only [list_messages, hAgentsNone]
  · intro msg hmsg hex
    obtain ⟨sess, hsess, hid, hown⟩ := hex
    rw [hdel1]
    intro hmem
    have h2 := (List.mem_filter.mp hmem).2
    have hidin : msg.session_id ∈
        (st.sessions.filter (fun s => s.agent_id == agentId)).map (fun s => s.id) := by
      apply List.mem_map.mpr
      exact ⟨sess, List.mem_filter.mpr ⟨hsess, by simp [hown]⟩, hid⟩
    simp [hidin] at h2
  · intro a ha hne
    rw [hdel1]
    exact List.mem_filter.mpr ⟨ha, by simp [hne]⟩
  · intro sess hsess hne
    rw [hdel1]
    exact List.mem_filter.mpr ⟨hsess, by simp [hne]⟩
  · intro msg hmsg hnone
    rw [hdel1]
    apply List.mem_filter.mpr
    refine ⟨hmsg, ?_⟩
    simp only [Bool.not_eq_true']
    apply Bool.eq_false_iff.mpr
    intro hcontains
    have : msg.session_id ∈
        (st.sessions.filter (fun s => s.agent_id == agentId)).map (fun s => s.id) := by
      simpa using hcontains
    obtain ⟨sess, hsessmem, hid⟩ := List.mem_map.mp this
    have hmemf := List.mem_filter.mp hsessmem
    exact hnone sess hmemf.1 hid (by simpa using hmemf.2)

theorem delete_agent_cascade_witness :
    ((delete_agent stTwo "agent-1").2 = .ok ())
    ∧ (getAgent (delete_agent stTwo "agent-1").1 "agent-1" = none)
    ∧ (get_agent (delete_agent stTwo "agent-1").1 "agent-1" =
        .error (.notFoundAgent "agent-1"))
    ∧ ((⟨"m-1", "sess-1", "user", "hi", none, 4⟩ : MessageRow) ∉
        ((delete_agent stTwo "agent-1").1).messages)
    ∧ (agentB ∈ ((delete_agent stTwo "agent-1").1).agents)
    ∧ ((⟨"m-9", "sess-9", "user", "yo", none, 5⟩ : MessageRow) ∈
        ((delete_agent stTwo "agent-1").1).messages) :=
  ⟨(delete_agent_cascade stTwo "agent-1" agentA (by rfl) (by decide)).1,
   (delete_agent_cascade stTwo "agent-1" agentA (by rfl) (by decide)).2.1,
   (delete_agent_cascade stTwo "agent-1" agentA (by rfl) (by decide)).2.2.1,
   (delete_agent_cascade stTwo "agent-1" agentA (by rfl) (by decide)).2.2.2.2.1
     ⟨"m-1", "sess-1", "user", "hi", none, 4⟩ (by decide)
     ⟨sessA, by decide, by decide, by decide⟩,
   (delete_agent_cascade stTwo "agent-1" agentA (by rfl) (by decide)).2.2.2.2.2.1
     agentB (by decide) (by decide),
   (delete_agent_cascade stTwo "agent-1" agentA (by rfl) (by decide)).2.2.2.2.2.2.2
     ⟨"m-9", "sess-9", "user", "yo", none, 5⟩ (by decide) (by decide)⟩

/-! ### C9 -/

/-- C9: a partial update to an existing agent sets exactly the fields present
in the body — name alone leaves the prompt unchanged and vice versa — and in
every case the agent's id and `created_at`, every other agent, and all
sessions and messages are unchanged. -/
theorem update_agent_partial_fields
    (st : Store) (agentId : String) (tNow : Nat) (agent : AgentRow)
    (hagent : getAgent st agentId = some agent) :
    (∀ payload,
        ((update_agent st agentId payload tNow).1).sessions = st.sessions
        ∧ ((update_agent st agentId payload tNow).1).messages = st.messages
        ∧ (∀ a ∈ st.agents, a.id ≠ agentId →
            a ∈ ((update_agent st agentId payload tNow).1).agents)
        ∧ ((update_agent st agentId payload tNow).1).agents.length = st.agents.length
        ∧ (∃ row, (update_agent st agentId payload tNow).2 = .ok row
            ∧ row.id = agent.id ∧ row.created_at = agent.created_at))
    ∧ (∀ nm, update_agent st agentId ⟨some nm, none⟩ tNow =
        ({ st with agents := st.agents.map (fun a => if a.id == agentId then
            { agent with name := nm, updated_at := tNow } else a) },
         .ok { agent with name := nm, updated_at := tNow }))
    ∧ (∀ pr, update_agent st agentId ⟨none, some pr⟩ tNow =
        ({ st with agents := st.agents.map (fun a => if a.id == agentId then
            { agent with prompt := pr, updated_at := tNow } else a) },
         .ok { agent with prompt := pr, updated_at := tNow })) := by
  refine ⟨?_, ?_, ?_⟩
  · intro payload
    refine ⟨?_, ?_, ?_, ?_, ?_⟩
    · simp only [update_agent, hagent]
    · simp only [update_agent, hagent]
    · intro a ha hne
      simp only [update_agent, hagent]
      exact List.mem_map.mpr ⟨a, ha, by simp [hne]⟩
    · simp only [update_agent, hagent, List.length_map]
    · have hrow : (update_agent st agentId payload tNow).2 =
          .ok { agent with
                name := payload.name.getD agent.name,
                prompt := payload.prompt.getD agent.prompt,
                updated_at := if payload.name.isSome || payload.prompt.isSome then tNow
                  else agent.updated_at } := by
        simp only [update_agent, hagent]
      exact ⟨_, hrow, rfl, rfl⟩
  · intro nm
    simp [update_agent, hagent]
  · intro pr
    simp [update_agent, hagent]

theorem update_agent_partial_fields_witness :
    update_agent st0 "agent-1" ⟨some "New Name", none⟩ 7 =
      ({ st0 with agents := st0.agents.map (fun a => if a.id == "agent-1" then
          { agentA with name := "New Name", updated_at := 7 } else a) },
       .ok { agentA with name := "New Name", updated_at := 7 }) :=
  (update_agent_partial_fields st0 "agent-1" 7 agentA (by rfl)).2.1 "New Name"

/-! ### C10 -/

/-- C10: a session created with an explicitly supplied empty-string title is
handled exactly like one created with no title: the falsy check triggers
default-title generation, and the persisted title is the generated
`"Chat {n} (...)"` string, never the empty string. -/
theorem empty_title_treated_as_absent
    (st : Store) (agentId sid : String) (h m s tNow : Nat) (agent : AgentRow)
    (hagent : getAgent st agentId = some agent) :
    (create_session st agentId (some "") sid h m s tNow =
      create_session st agentId none sid h m s tNow)
    ∧ ((create_session st agentId (some "") sid h m s tNow).2 =
        .ok ⟨sid, agentId, some (default_title (countSessions st agentId) h m s), tNow⟩)
    ∧ default_title (countSessions st agentId) h m s ≠ "" := by
  refine ⟨?_, ?_, ?_⟩
  · simp [create_session, hagent]
  · simp [create_session, hagent]
  · exact fun hc => List.noConfusion (congrArg String.data hc)

theorem empty_title_treated_as_absent_witness :
    (create_session st0 "agent-1" (some "") "sess-5" 9 5 7 10 =
      create_session st0 "agent-1" none "sess-5" 9 5 7 10)
    ∧ default_title (countSessions st0 "agent-1") 9 5 7 ≠ "" :=
  ⟨(empty_title_treated_as_absent st0 "agent-1" "sess-5" 9 5 7 10 agentA (by rfl)).1,
   (empty_title_treated_as_absent st0 "agent-1" "sess-5" 9 5 7 10 agentA (by rfl)).2.2⟩

end AgentPlatform
